import Mathlib

set_option autoImplicit false

/-!
Shallow embedding of the kanban-mcp client operations.

The embedding follows the TypeScript sources:
* src/operations/cardMemberships.ts : addCardMember, removeCardMember, getCardMembers
* src/operations/attachments.ts     : uploadAttachment, uploadAttachmentFromUrl,
                                      deleteAttachment, getAttachments
* actions module                     : getCardActions, getAction, getCardActivitySummary
* users / notifications module       : getNotifications, markNotificationsAsRead,
                                      getUnreadNotificationsCount, markAllNotificationsAsRead

Effectful collaborators (the HTTP transport plankaRequest, the token cache
getAuthenticationToken, fetch, and the filesystem) are modelled as explicit
parameters: an Except value or function stands for the outcome of one remote
call (transport plus zod response validation), and each operation additionally
returns the trace of remote calls it issued, so that frame conditions
(which network calls happen) can be stated.
-/

/-! ## Data model

Entity records mirror the zod schemas in the sources.  Fields whose schemas
live in src/common/types.ts (not part of the sources) are modelled from the
spec where needed; the claims below never depend on those shapes beyond the
fields the operations actually read (`id`, `userId`, `name`, `username`,
`email`, `isRead`).  A JS `undefined` is modelled as `Option.none`; the raw
`included: z.record(z.any())` side-map is kept opaque.
-/

/-- Opaque model of a `z.record(z.any())` JSON map. -/
abbrev IncludedMap := List (String × String)

/-- Card membership record: the fields read by the operations (`userId`) plus
identity and card reference, per the spec's CardMembership entity. -/
structure PlankaCardMembership where
  id : String
  cardId : String
  userId : String
  deriving Repr, DecidableEq

/-- User record as read from the untyped `included.users` side list:
`getCardMembers` reads `id`; the activity summary reads `name`, `username`,
`email`, any of which may be absent (or empty, which JS `||` also skips). -/
structure PlankaUser where
  id : String
  name : Option String
  username : Option String
  email : Option String
  deriving Repr, DecidableEq

/-- Result record of the `getCardMembers` join: `{ membership, user }`,
where `user` is `undefined` (`none`) when no included user matches. -/
structure CardMemberRecord where
  membership : PlankaCardMembership
  user : Option PlankaUser
  deriving Repr, DecidableEq

/-- The `included` part of the card-detail response as read by
`getCardMembers`: optional `cardMemberships` and `users` lists. -/
structure CardDetailIncluded where
  cardMemberships : Option (List PlankaCardMembership)
  users : Option (List PlankaUser)
  deriving Repr, DecidableEq

/-- Card-detail response envelope as cast in `getCardMembers`
(`{ item: any; included?: ... }`); only `included` is read. -/
structure CardDetailResponse where
  included : Option CardDetailIncluded
  deriving Repr, DecidableEq

/-! ## getCardMembers (src/operations/cardMemberships.ts, lines 118-150)

The `plankaRequest` call for the card detail is passed in as an
`Except String CardDetailResponse`: `Except.error e` models the transport
throwing with message `e`, `Except.ok` a parsed JSON response.
-/

/-- Translation of `getCardMembers`: extract `cardMemberships` and `users`
from `included` (defaulting to `[]` as `|| []` does), then map each
membership to `{ membership, user := users.find(u => u.id === membership.userId) }`.
A thrown error is wrapped with the prefix `Failed to get card members: `. -/
def getCardMembers (fetchCard : Except String CardDetailResponse) :
    Except String (List CardMemberRecord) :=
  match fetchCard with
  | Except.error e => Except.error ("Failed to get card members: " ++ e)
  | Except.ok response =>
    let cardMemberships := (response.included.bind fun inc => inc.cardMemberships).getD []
    let users := (response.included.bind fun inc => inc.users).getD []
    Except.ok (cardMemberships.map fun membership =>
      { membership := membership
        user := users.find? fun u => u.id == membership.userId })

/-- Validated response of the card-membership POST/DELETE
(`CardMembershipResponseSchema`): `item` plus an untyped optional
`included`. -/
structure CardMembershipResponse where
  item : PlankaCardMembership
  included : Option IncludedMap
  deriving Repr, DecidableEq

/-- Translation of `addCardMember` (cardMemberships.ts, lines 62-82): POST,
validate, return `item`; errors are wrapped with the prefix
`Failed to add member to card: `. -/
def addCardMember (request : Except String CardMembershipResponse) :
    Except String PlankaCardMembership :=
  match request with
  | Except.error e => Except.error ("Failed to add member to card: " ++ e)
  | Except.ok parsed => Except.ok parsed.item

/-- Translation of `removeCardMember` (cardMemberships.ts, lines 93-110):
DELETE addressed by `userId:<id>`, validate, return `item`; errors are
wrapped with the prefix `Failed to remove member from card: `. -/
def removeCardMember (request : Except String CardMembershipResponse) :
    Except String PlankaCardMembership :=
  match request with
  | Except.error e => Except.error ("Failed to remove member from card: " ++ e)
  | Except.ok parsed => Except.ok parsed.item

/-! ## Notifications (users/notifications module)

`markNotificationsAsRead` issues `Promise.all(ids.map(id => PATCH ...))`:
every id gets exactly one PATCH (all are issued when the array is mapped),
and the aggregate promise resolves with the items in input order, or rejects
with the first rejection.  The embedding determinizes "first rejection in
time" to "leftmost failing id"; the claims do not depend on which failure is
reported.  Each PATCH outcome (transport plus
`NotificationResponseSchema.parse`) is given by `patch : String → Except String PlankaNotification`.
-/

/-- Notification record, mirroring `PlankaNotificationSchema`. -/
structure PlankaNotification where
  id : String
  userId : String
  actionId : String
  cardId : String
  isRead : Bool
  createdAt : String
  updatedAt : Option String
  deriving Repr, DecidableEq

/-- Aggregation of the per-id PATCH results, modelling
`Promise.all(ids.map(...))`: all ok yields the items in input order,
otherwise the first failure rejects the whole batch. -/
def patchAll (patch : String → Except String PlankaNotification) :
    List String → Except String (List PlankaNotification)
  | [] => Except.ok []
  | i :: is =>
    match patch i with
    | Except.error e => Except.error e
    | Except.ok n =>
      match patchAll patch is with
      | Except.error e => Except.error e
      | Except.ok ns => Except.ok (n :: ns)

/-- Translation of `markNotificationsAsRead`: one PATCH per id via
`Promise.all`, result wrapped on failure with the prefix
`Failed to mark notifications as read: `.  The second component is the trace
of ids PATCHed (all of them: the promises are created before any settles). -/
def markNotificationsAsRead (patch : String → Except String PlankaNotification)
    (ids : List String) : Except String (List PlankaNotification) × List String :=
  (match patchAll patch ids with
   | Except.ok updates => Except.ok updates
   | Except.error e => Except.error ("Failed to mark notifications as read: " ++ e),
   ids)

/-! ## Helper lemmas -/

/-- Zipping a mapped list with the original list pairs each element with its
image, positionally. -/
theorem zip_map_self {α β : Type} (f : α → β) (l : List α) :
    (l.map f).zip l = l.map fun a => (f a, a) := by
  induction l with
  | nil => rfl
  | cons a as ih => simp [ih]

/-- Characterization of `patchAll` when every PATCH succeeds. -/
theorem patchAll_ok_of_all_ok (patch : String → Except String PlankaNotification) :
    ∀ ids : List String, (∀ i ∈ ids, ∃ n, patch i = Except.ok n) →
      ∃ ns, patchAll patch ids = Except.ok ns ∧ ns.length = ids.length ∧
        ∀ p ∈ ns.zip ids, patch p.2 = Except.ok p.1
  | [], _ => ⟨[], rfl, rfl, by simp⟩
  | i :: is, h => by
    obtain ⟨n, hn⟩ := h i (by simp)
    obtain ⟨ns, hns, hlen, hzip⟩ :=
      patchAll_ok_of_all_ok patch is (fun j hj => h j (by simp [hj]))
    refine ⟨n :: ns, by simp [patchAll, hn, hns], by simp [hlen], ?_⟩
    intro p hp
    rcases List.mem_cons.mp hp with h1 | h2
    · rw [h1]; exact hn
    · exact hzip p h2

/-- Characterization of `patchAll` when some PATCH fails: the whole batch is
an error (no partial list survives). -/
theorem patchAll_error_of_mem (patch : String → Except String PlankaNotification) :
    ∀ (ids : List String) (i e : String), i ∈ ids → patch i = Except.error e →
      ∃ msg, patchAll patch ids = Except.error msg
  | [], i, e, hi, _ => absurd hi (List.not_mem_nil i)
  | a :: as, i, e, hi, he => by
    cases hpa : patch a with
    | error e0 => exact ⟨e0, by simp [patchAll, hpa]⟩
    | ok n =>
      have hias : i ∈ as := by
        rcases List.mem_cons.mp hi with h1 | h2
        · rw [h1] at he; rw [he] at hpa; exact absurd hpa (by simp)
        · exact h2
      obtain ⟨msg, hmsg⟩ := patchAll_error_of_mem patch as i e hias he
      exact ⟨msg, by simp [patchAll, hpa, hmsg]⟩

/-! ## Claim theorems: C1, C2 -/

/-- C1: for a card-detail response whose `included` carries `cardMemberships`
and `users`, `getCardMembers` returns one record per membership in
membership-list order; each record pairs the membership with a user from
`included.users` whose `id` equals the membership's `userId`, and a
membership with no matching user is kept with `user` undefined (`none`),
never dropped. -/
theorem getCardMembers_left_join (ms : List PlankaCardMembership) (us : List PlankaUser) :
    ∃ r, getCardMembers (Except.ok ⟨some ⟨some ms, some us⟩⟩) = Except.ok r ∧
      r.length = ms.length ∧
      ∀ p ∈ r.zip ms,
        p.1.membership = p.2 ∧
        (∀ u, p.1.user = some u → u ∈ us ∧ u.id = p.2.userId) ∧
        (p.1.user = none ↔ ∀ u ∈ us, u.id ≠ p.2.userId) := by
  refine ⟨ms.map fun m =>
    { membership := m, user := us.find? fun u => u.id == m.userId },
    rfl, by simp, ?_⟩
  intro p hp
  rw [zip_map_self] at hp
  obtain ⟨m, hm, hpm⟩ := List.mem_map.mp hp
  rw [← hpm]
  refine ⟨rfl, ?_, ?_⟩
  · intro u hu
    have h1 := List.find?_some hu
    have h2 := List.mem_of_find?_eq_some hu
    exact ⟨h2, by simpa using h1⟩
  · constructor
    · intro hnone u hu
      have := List.find?_eq_none.mp hnone u hu
      simpa using this
    · intro hall
      apply List.find?_eq_none.mpr
      intro u hu
      simpa using hall u hu

/-- C1 witness: the spec example, memberships for users u1 and u2 joined
against the single included user u1. -/
theorem getCardMembers_left_join_witness :
    ∃ r, getCardMembers (Except.ok ⟨some ⟨some [⟨"m1", "c1", "u1"⟩, ⟨"m2", "c1", "u2"⟩],
        some [⟨"u1", some "A", none, none⟩]⟩⟩) = Except.ok r ∧
      r.length = [(⟨"m1", "c1", "u1"⟩ : PlankaCardMembership), ⟨"m2", "c1", "u2"⟩].length ∧
      ∀ p ∈ r.zip [(⟨"m1", "c1", "u1"⟩ : PlankaCardMembership), ⟨"m2", "c1", "u2"⟩],
        p.1.membership = p.2 ∧
        (∀ u, p.1.user = some u →
          u ∈ [(⟨"u1", some "A", none, none⟩ : PlankaUser)] ∧ u.id = p.2.userId) ∧
        (p.1.user = none ↔
          ∀ u ∈ [(⟨"u1", some "A", none, none⟩ : PlankaUser)], u.id ≠ p.2.userId) :=
  getCardMembers_left_join [⟨"m1", "c1", "u1"⟩, ⟨"m2", "c1", "u2"⟩]
    [⟨"u1", some "A", none, none⟩]

/-- C2: `markNotificationsAsRead` issues one PATCH per id (the trace is
exactly the id list); it succeeds exactly when every PATCH succeeds, yielding
one updated item per id in input order, and if any single PATCH fails the
whole operation fails with the wrapped error, returning no partial list. -/
theorem markNotificationsAsRead_all_or_nothing
    (patch : String → Except String PlankaNotification) (ids : List String) :
    (markNotificationsAsRead patch ids).2 = ids ∧
    ((∀ i ∈ ids, ∃ n, patch i = Except.ok n) →
      ∃ ns, (markNotificationsAsRead patch ids).1 = Except.ok ns ∧
        ns.length = ids.length ∧ ∀ p ∈ ns.zip ids, patch p.2 = Except.ok p.1) ∧
    (∀ i ∈ ids, ∀ e, patch i = Except.error e →
      ∃ msg, (markNotificationsAsRead patch ids).1 =
        Except.error ("Failed to mark notifications as read: " ++ msg)) := by
  refine ⟨rfl, ?_, ?_⟩
  · intro hall
    obtain ⟨ns, hns, hlen, hzip⟩ := patchAll_ok_of_all_ok patch ids hall
    exact ⟨ns, by simp [markNotificationsAsRead, hns], hlen, hzip⟩
  · intro i hi e he
    obtain ⟨msg, hmsg⟩ := patchAll_error_of_mem patch ids i e hi he
    exact ⟨msg, by simp [markNotificationsAsRead, hmsg]⟩

/-- C2 witness: the spec example, ids a and b where the PATCH for b fails. -/
theorem markNotificationsAsRead_all_or_nothing_witness :
    (markNotificationsAsRead
        (fun i => if i = "b" then Except.error "boom"
          else Except.ok ⟨"n1", "u1", "a1", "c1", true, "t0", none⟩)
        ["a", "b"]).2 = ["a", "b"] ∧
    ((∀ i ∈ ["a", "b"], ∃ n,
        (fun i => if i = "b" then Except.error "boom"
          else Except.ok (⟨"n1", "u1", "a1", "c1", true, "t0", none⟩ : PlankaNotification)) i
          = Except.ok n) →
      ∃ ns, (markNotificationsAsRead
          (fun i => if i = "b" then Except.error "boom"
            else Except.ok ⟨"n1", "u1", "a1", "c1", true, "t0", none⟩)
          ["a", "b"]).1 = Except.ok ns ∧
        ns.length = ["a", "b"].length ∧
        ∀ p ∈ ns.zip ["a", "b"],
          (fun i => if i = "b" then Except.error "boom"
            else Except.ok (⟨"n1", "u1", "a1", "c1", true, "t0", none⟩ : PlankaNotification)) p.2
            = Except.ok p.1) ∧
    (∀ i ∈ ["a", "b"], ∀ e,
      (fun i => if i = "b" then Except.error "boom"
        else Except.ok (⟨"n1", "u1", "a1", "c1", true, "t0", none⟩ : PlankaNotification)) i
        = Except.error e →
      ∃ msg, (markNotificationsAsRead
          (fun i => if i = "b" then Except.error "boom"
            else Except.ok ⟨"n1", "u1", "a1", "c1", true, "t0", none⟩)
          ["a", "b"]).1 =
        Except.error ("Failed to mark notifications as read: " ++ msg)) :=
  markNotificationsAsRead_all_or_nothing
    (fun i => if i = "b" then Except.error "boom"
      else Except.ok ⟨"n1", "u1", "a1", "c1", true, "t0", none⟩)
    ["a", "b"]

/-! ## Actions module (getCardActions / getCardActivitySummary)

Source: the actions operations file (src/unnamed/part_000).
-/

/-- Action type: `z.enum(["createCard", "moveCard", "commentCard"])` from
`PlankaActionSchema`; a validated response carries no other type. -/
inductive ActionType where
  | createCard : ActionType
  | moveCard : ActionType
  | commentCard : ActionType
  deriving Repr, DecidableEq

/-- Action record, mirroring `PlankaActionSchema`; `data` is an opaque
`z.record(z.any())`. -/
structure PlankaAction where
  id : String
  type : ActionType
  data : IncludedMap
  cardId : String
  userId : String
  createdAt : String
  updatedAt : Option String
  deriving Repr, DecidableEq

/-- The parts of the untyped `included` map read by
`getCardActivitySummary`: `users` when it is present and an array
(`none` models both "key absent" and "not an array"). -/
structure ActionsIncluded where
  users : Option (List PlankaUser)
  deriving Repr, DecidableEq

/-- Validated response of `GET /api/cards/:id/actions`
(`ActionsResponseSchema`): `items` plus optional `included`. -/
structure ActionsResponse where
  items : List PlankaAction
  included : Option ActionsIncluded
  deriving Repr, DecidableEq

/-- Return value of `getCardActions`: `{ actions, included: included || {} }`. -/
structure CardActionsResult where
  actions : List PlankaAction
  included : ActionsIncluded
  deriving Repr, DecidableEq

/-- Translation of `getCardActions`: validate the response, return the items
and the included map (defaulted to empty); errors are wrapped with the
prefix `Failed to get card actions: `. -/
def getCardActions (request : Except String ActionsResponse) :
    Except String CardActionsResult :=
  match request with
  | Except.error e => Except.error ("Failed to get card actions: " ++ e)
  | Except.ok parsed =>
    Except.ok { actions := parsed.items, included := parsed.included.getD { users := none } }

/-- Validated response of `GET /api/actions/:id` (`ActionResponseSchema`):
`item` plus an untyped optional `included`. -/
structure ActionResponse where
  item : PlankaAction
  included : Option IncludedMap
  deriving Repr, DecidableEq

/-- Translation of `getAction`: fetch, validate, return `item`; errors are
wrapped with the prefix `Failed to get action: `. -/
def getAction (request : Except String ActionResponse) : Except String PlankaAction :=
  match request with
  | Except.error e => Except.error ("Failed to get action: " ++ e)
  | Except.ok parsed => Except.ok parsed.item

/-- JS `a || b` on possibly-absent strings: `undefined` and the empty string
are falsy and fall through to `b`. -/
def jsStringOr (a b : Option String) : Option String :=
  match a with
  | some s => if s = "" then b else some s
  | none => b

/-- Lookup in the `usersMap` built by
`included.users.forEach(user => usersMap.set(user.id, user))`: `Map.set`
overwrites, so `get` returns the last user in the list with the given id. -/
def lookupIncludedUser (users : List PlankaUser) (uid : String) : Option PlankaUser :=
  users.reverse.find? fun u => u.id == uid

/-- Flattened action view produced by `getCardActivitySummary`: the `user`
field is `user.name || user.username || user.email` when the user is found
(which can itself be `undefined` when all three are falsy), and the string
`"Unknown user"` otherwise. -/
structure FormattedAction where
  id : String
  type : ActionType
  user : Option String
  userId : String
  data : IncludedMap
  createdAt : String
  deriving Repr, DecidableEq

/-- Translation of the per-action formatting step of `getCardActivitySummary`. -/
def formatAction (users : Option (List PlankaUser)) (action : PlankaAction) :
    FormattedAction :=
  let usersList := users.getD []
  let userFound := lookupIncludedUser usersList action.userId
  let userName : Option String :=
    match userFound with
    | some u => jsStringOr u.name (jsStringOr u.username u.email)
    | none => some "Unknown user"
  { id := action.id, type := action.type, user := userName,
    userId := action.userId, data := action.data, createdAt := action.createdAt }

/-- Summary record returned by `getCardActivitySummary`, with the `byType`
object flattened into three count fields. -/
structure ActivitySummary where
  totalActions : Nat
  byTypeCreateCard : Nat
  byTypeMoveCard : Nat
  byTypeCommentCard : Nat
  recentActions : List FormattedAction
  allActions : List FormattedAction
  deriving Repr, DecidableEq

/-- Translation of the pure summarization part of `getCardActivitySummary`
(lines 110-149): format every action, count each of the three known types by
filtering, and slice the first 10 formatted actions as `recentActions`. -/
def summarizeActions (actions : List PlankaAction) (users : Option (List PlankaUser)) :
    ActivitySummary :=
  let formattedActions := actions.map (formatAction users)
  { totalActions := formattedActions.length
    byTypeCreateCard := (formattedActions.filter fun a => a.type == ActionType.createCard).length
    byTypeMoveCard := (formattedActions.filter fun a => a.type == ActionType.moveCard).length
    byTypeCommentCard := (formattedActions.filter fun a => a.type == ActionType.commentCard).length
    recentActions := formattedActions.take 10
    allActions := formattedActions }

/-- Translation of `getCardActivitySummary`: fetch and validate the actions
via `getCardActions`, then summarize; errors are wrapped with the prefix
`Failed to get card activity summary: `. -/
def getCardActivitySummary (request : Except String ActionsResponse) :
    Except String ActivitySummary :=
  match getCardActions request with
  | Except.error e => Except.error ("Failed to get card activity summary: " ++ e)
  | Except.ok result =>
    Except.ok (summarizeActions result.actions result.included.users)

/-! ## Users module (part_001, lines 78-193)

`PlankaUserSchema` lives in src/common/types.ts (not among the sources);
the `PlankaUser` record above models the fields the operations read, each
defended in the source with `|| ""`, so absence is allowed.  The JS string
operations `toLowerCase` and `includes` are translated as structurally
recursive character-list functions.
-/

/-- Validated response of `GET /api/users` (`UsersResponseSchema`). -/
structure UsersResponse where
  items : List PlankaUser
  included : Option IncludedMap
  deriving Repr, DecidableEq

/-- Validated response of `GET /api/users/:id` (`UserResponseSchema`). -/
structure UserResponse where
  item : PlankaUser
  included : Option IncludedMap
  deriving Repr, DecidableEq

/-- Translation of `getUsers`: fetch, validate, return `items`; errors are
wrapped with the prefix `Failed to get users: `. -/
def getUsers (request : Except String UsersResponse) :
    Except String (List PlankaUser) :=
  match request with
  | Except.error e => Except.error ("Failed to get users: " ++ e)
  | Except.ok parsed => Except.ok parsed.items

/-- Translation of `getUser`: fetch, validate, return `item`; errors are
wrapped with the prefix `Failed to get user: `. -/
def getUser (request : Except String UserResponse) : Except String PlankaUser :=
  match request with
  | Except.error e => Except.error ("Failed to get user: " ++ e)
  | Except.ok parsed => Except.ok parsed.item

/-- JS `toLowerCase` (character-wise lowering, sufficient for the ASCII
identifiers the operations compare). -/
def jsToLower (s : String) : String :=
  String.mk (s.data.map Char.toLower)

/-- Does the second list start with the first one? -/
def listStartsWith : List Char → List Char → Bool
  | [], _ => true
  | _ :: _, [] => false
  | a :: as, b :: bs => a == b && listStartsWith as bs

/-- JS `String.prototype.includes` on character lists: `sub` occurs
contiguously in the list. -/
def listIncludes (sub : List Char) : List Char → Bool
  | [] => listStartsWith sub []
  | c :: cs => listStartsWith sub (c :: cs) || listIncludes sub cs

/-- Translation of `searchUsersByName`: case-insensitive substring match on
`user.name || ""`; errors (already wrapped by `getUsers`) are re-wrapped
with the prefix `Failed to search users by name: `. -/
def searchUsersByName (request : Except String UsersResponse) (name : String) :
    Except String (List PlankaUser) :=
  match getUsers request with
  | Except.error e => Except.error ("Failed to search users by name: " ++ e)
  | Except.ok users =>
    let searchLower := jsToLower name
    Except.ok (users.filter fun user =>
      listIncludes searchLower.data (jsToLower (user.name.getD "")).data)

/-- Translation of `searchUsersByEmail`: case-insensitive exact match on
`user.email || ""`; errors are re-wrapped with the prefix
`Failed to search users by email: `. -/
def searchUsersByEmail (request : Except String UsersResponse) (email : String) :
    Except String (List PlankaUser) :=
  match getUsers request with
  | Except.error e => Except.error ("Failed to search users by email: " ++ e)
  | Except.ok users =>
    let searchLower := jsToLower email
    Except.ok (users.filter fun user => jsToLower (user.email.getD "") == searchLower)

/-- Translation of `searchUsersByUsername`: case-insensitive exact match on
`user.username || ""`; errors are re-wrapped with the prefix
`Failed to search users by username: `. -/
def searchUsersByUsername (request : Except String UsersResponse) (username : String) :
    Except String (List PlankaUser) :=
  match getUsers request with
  | Except.error e => Except.error ("Failed to search users by username: " ++ e)
  | Except.ok users =>
    let searchLower := jsToLower username
    Except.ok (users.filter fun user => jsToLower (user.username.getD "") == searchLower)

/-- Translation of `getUserIdByName` (part_001, lines 190-193): delegates to
`searchUsersByName` and picks the first match's id.  It has NO try/catch of
its own: an error propagates exactly as thrown by the callee (which wrapped
it with the search prefix), with no `getUserIdByName` prefix added. -/
def getUserIdByName (request : Except String UsersResponse) (name : String) :
    Except String (Option String) :=
  match searchUsersByName request name with
  | Except.error e => Except.error e
  | Except.ok users =>
    Except.ok (match users with
      | [] => none
      | u :: _ => some u.id)

/-! ## Remaining notification operations (getNotifications / markAllNotificationsAsRead) -/

/-- Validated response of `GET /api/notifications`
(`NotificationsResponseSchema`). -/
structure NotificationsResponse where
  items : List PlankaNotification
  included : Option IncludedMap
  deriving Repr, DecidableEq

/-- Return value of `getNotifications`:
`{ notifications: items, included: included || {} }`. -/
structure NotificationsResult where
  notifications : List PlankaNotification
  included : IncludedMap
  deriving Repr, DecidableEq

/-- Translation of `getNotifications`; errors are wrapped with the prefix
`Failed to get notifications: `. -/
def getNotifications (request : Except String NotificationsResponse) :
    Except String NotificationsResult :=
  match request with
  | Except.error e => Except.error ("Failed to get notifications: " ++ e)
  | Except.ok parsed =>
    Except.ok { notifications := parsed.items, included := parsed.included.getD [] }

/-- Validated response of `GET /api/notifications/:id`
(`NotificationResponseSchema`). -/
structure NotificationResponse where
  item : PlankaNotification
  included : Option IncludedMap
  deriving Repr, DecidableEq

/-- Translation of `getNotification`: fetch, validate, return `item`;
errors are wrapped with the prefix `Failed to get notification: `. -/
def getNotification (request : Except String NotificationResponse) :
    Except String PlankaNotification :=
  match request with
  | Except.error e => Except.error ("Failed to get notification: " ++ e)
  | Except.ok parsed => Except.ok parsed.item

/-- Translation of `getUnreadNotificationsCount`: fetch, then count the
locally filtered unread items. -/
def getUnreadNotificationsCount (request : Except String NotificationsResponse) :
    Except String Nat :=
  match getNotifications request with
  | Except.error e =>
    Except.error ("Failed to get unread notifications count: " ++ e)
  | Except.ok result =>
    Except.ok (result.notifications.filter fun n => !n.isRead).length

/-- Network calls a notification operation can issue: the list GET and the
per-id PATCH. -/
inductive NotificationCall where
  | getList : NotificationCall
  | patchNotification : String → NotificationCall
  deriving Repr, DecidableEq

/-- Translation of `markAllNotificationsAsRead`: fetch the notifications
(one GET), filter the unread ids locally, return `[]` straight away when
there are none, otherwise delegate to `markNotificationsAsRead`.  The second
component is the trace of network calls issued. -/
def markAllNotificationsAsRead
    (listRequest : Except String NotificationsResponse)
    (patch : String → Except String PlankaNotification) :
    Except String (List PlankaNotification) × List NotificationCall :=
  match getNotifications listRequest with
  | Except.error e =>
    (Except.error ("Failed to mark all notifications as read: " ++ e),
      [NotificationCall.getList])
  | Except.ok result =>
    let unreadIds := (result.notifications.filter fun n => !n.isRead).map fun n => n.id
    if unreadIds.length = 0 then
      (Except.ok [], [NotificationCall.getList])
    else
      let marked := markNotificationsAsRead patch unreadIds
      (match marked.1 with
       | Except.ok updates => Except.ok updates
       | Except.error e =>
         Except.error ("Failed to mark all notifications as read: " ++ e),
       NotificationCall.getList :: marked.2.map NotificationCall.patchNotification)

/-! ## Attachments module (src/operations/attachments.ts)

The file-system and the two transports (the authenticated form-data submit
and the download `fetch`) are modelled as explicit environment records; each
operation also returns the trace of calls it made to the kanban service, so
the no-network-activity claims are statable.
-/

/-- Modelled from the spec: `PlankaAttachmentSchema` is declared in
src/common/types.ts, which is not among the sources.  The spec describes an
attachment as identity, owning card reference, file metadata (name, URL) and
creation timestamp; no claim below depends on this shape. -/
structure PlankaAttachment where
  id : String
  cardId : String
  name : String
  url : Option String
  createdAt : String
  deriving Repr, DecidableEq

/-- Calls `uploadAttachment` can make to the kanban service: the
token acquisition (`getAuthenticationToken`) and the multipart POST. -/
inductive NetworkCall where
  | authenticate : NetworkCall
  | uploadPost : String → NetworkCall
  deriving Repr, DecidableEq

/-- Environment of `uploadAttachment`: the `fs.existsSync` oracle, the
outcome of `getAuthenticationToken`, and the outcome of the form-data
`submit` (status check, JSON parse and `AttachmentResponseSchema.parse`
folded into one `Except`), as a function of card id and bearer token. -/
structure UploadEnv where
  fileExists : String → Bool
  authToken : Except String String
  submitUpload : String → String → Except String PlankaAttachment

/-- Translation of `uploadAttachment` (lines 83-175): check the local file
first and fail with `File not found` before any network call; then acquire
the token, POST the multipart body, and validate the response.  Every
failure is wrapped with the prefix `Failed to upload attachment: `.  The
second component is the trace of network calls. -/
def uploadAttachment (env : UploadEnv) (cardId filePath : String) :
    Except String PlankaAttachment × List NetworkCall :=
  if env.fileExists filePath = false then
    (Except.error ("Failed to upload attachment: " ++ ("File not found: " ++ filePath)), [])
  else
    match env.authToken with
    | Except.error e =>
      (Except.error ("Failed to upload attachment: " ++ e), [NetworkCall.authenticate])
    | Except.ok token =>
      match env.submitUpload cardId token with
      | Except.error e =>
        (Except.error ("Failed to upload attachment: " ++ e),
          [NetworkCall.authenticate, NetworkCall.uploadPost cardId])
      | Except.ok item =>
        (Except.ok item, [NetworkCall.authenticate, NetworkCall.uploadPost cardId])

/-- Result record of `deleteAttachment`: `{ success: true }`. -/
structure DeleteAttachmentResult where
  success : Bool
  deriving Repr, DecidableEq

/-- Translation of `deleteAttachment` (lines 313-318): one DELETE via
`plankaRequest`, no try/catch around it, `{ success: true }` on success.
The transport outcome is passed in as an `Except`. -/
def deleteAttachment (request : Except String Unit) (_attachmentId : String) :
    Except String DeleteAttachmentResult :=
  match request with
  | Except.error e => Except.error e
  | Except.ok _ => Except.ok { success := true }

/-- The `included` part of the card-detail response as read by
`getAttachments`: an optional `attachments` list. -/
structure AttachmentsIncluded where
  attachments : Option (List PlankaAttachment)
  deriving Repr, DecidableEq

/-- Card-detail response envelope as cast in `getAttachments`. -/
structure AttachmentCardResponse where
  included : Option AttachmentsIncluded
  deriving Repr, DecidableEq

/-- Translation of `getAttachments` (lines 326-347): extract
`included.attachments` (defaulting to `[]`), wrapping errors with the
prefix `Failed to get attachments: `. -/
def getAttachments (fetchCard : Except String AttachmentCardResponse) :
    Except String (List PlankaAttachment) :=
  match fetchCard with
  | Except.error e => Except.error ("Failed to get attachments: " ++ e)
  | Except.ok response =>
    Except.ok ((response.included.bind fun inc => inc.attachments).getD [])

/-! ## Filename selection of uploadAttachmentFromUrl (lines 214-262)

String helpers translate the JS path/regex operations:
* `path.basename` on a POSIX pathname;
* the test `/\.[a-z0-9]{2,4}$/i` — a match must end the string, and the
  matched characters are alphanumeric (hence contain no further dot), so it
  is equivalent to a condition on the suffix after the last dot;
* the match `/\.(jpg|jpeg|png|gif|pdf|doc|docx|txt|svg|webp|json)$/i` whose
  `[0]` keeps the original case of the matched text — equivalently, the
  suffix after the last dot belongs to the alternatives up to case.
-/

/-- POSIX `path.basename`: strip trailing slashes (a string of only slashes
gives `"/"`), then keep the part after the last remaining slash. -/
def posixBasename (p : String) : String :=
  if p = "" then ""
  else
    let stripped := (p.data.reverse.dropWhile fun c => c = '/').reverse
    if stripped = [] then "/"
    else String.mk (stripped.reverse.takeWhile fun c => c ≠ '/').reverse

/-- Suffix of a string after its last dot, `none` when it has no dot. -/
def extAfterLastDot (s : String) : Option String :=
  if s.data.contains '.' then
    some (String.mk (s.data.reverse.takeWhile fun c => c ≠ '.').reverse)
  else none

/-- The test `/\.[a-z0-9]{2,4}$/i`: the suffix after the last dot has 2 to 4
characters, all alphanumeric. -/
def hasShortExt (s : String) : Bool :=
  match extAfterLastDot s with
  | some t => 2 ≤ t.length && t.length ≤ 4 && t.data.all Char.isAlphanum
  | none => false

/-- Characters removed by JS `trim()` (the whitespace actually occurring in
content-type headers). -/
def isJsSpace (c : Char) : Bool :=
  c = ' ' || c = '\t' || c = '\n' || c = '\r'

/-- Prefix of a character list up to (excluding) the first semicolon:
`split(";")[0]`. -/
def takeUntilSemicolon : List Char → List Char
  | [] => []
  | c :: cs => if c = ';' then [] else c :: takeUntilSemicolon cs

/-- JS `contentType.split(";")[0].trim()`. -/
def normalizeContentType (ct : String) : String :=
  let firstPart := takeUntilSemicolon ct.data
  String.mk ((firstPart.dropWhile isJsSpace).reverse.dropWhile isJsSpace).reverse

/-- The `mimeToExt` lookup table of `uploadAttachmentFromUrl`. -/
def mimeToExt (mime : String) : Option String :=
  if mime = "image/jpeg" then some ".jpg"
  else if mime = "image/jpg" then some ".jpg"
  else if mime = "image/png" then some ".png"
  else if mime = "image/gif" then some ".gif"
  else if mime = "image/svg+xml" then some ".svg"
  else if mime = "image/webp" then some ".webp"
  else if mime = "application/pdf" then some ".pdf"
  else if mime = "text/plain" then some ".txt"
  else if mime = "application/json" then some ".json"
  else if mime = "application/msword" then some ".doc"
  else if mime = "application/vnd.openxmlformats-officedocument.wordprocessingml.document"
    then some ".docx"
  else none

/-- Alternatives of the URL fallback regex. -/
def urlExtAlternatives : List String :=
  ["jpg", "jpeg", "png", "gif", "pdf", "doc", "docx", "txt", "svg", "webp", "json"]

/-- The match `url.match(/\.(jpg|...|json)$/i)?.[0]`: the matched text (dot
plus original-case suffix) when the suffix after the last dot is one of the
alternatives up to case. -/
def urlRegexExt (url : String) : Option String :=
  match extAfterLastDot url with
  | some t =>
    if urlExtAlternatives.contains (String.mk (t.data.map Char.toLower)) then some ("." ++ t)
    else none
  | none => none

/-- Body of the `if (!filename)` block of `uploadAttachmentFromUrl`
(lines 216-261): the URL path basename when it is nonempty, not `"/"`, and
passes the short-extension test; otherwise `download_<Date.now()>` plus the
extension from the content-type table, else from the URL regex match, else
`".bin"`. -/
def fallbackFilename (urlPathname : String) (contentType : Option String)
    (url : String) (now : Nat) : String :=
  let urlFilename := posixBasename urlPathname
  if urlFilename ≠ "" && urlFilename ≠ "/" && hasShortExt urlFilename then
    urlFilename
  else
    let mimeExtension :=
      match contentType with
      | some ct => (mimeToExt (normalizeContentType ct)).getD ""
      | none => ""
    let chosenExt :=
      if mimeExtension = "" then (urlRegexExt url).getD ".bin" else mimeExtension
    "download_" ++ toString now ++ chosenExt

/-- Translation of the filename determination of `uploadAttachmentFromUrl`
(lines 214-262): `let filename = options.filename; if (!filename) {...}` —
the explicit parameter wins only when it is truthy, i.e. present and not
the empty string (JS falsiness); an absent or empty parameter falls through
to the `fallbackFilename` chain. -/
def chooseFilename (filenameParam : Option String) (urlPathname : String)
    (contentType : Option String) (url : String) (now : Nat) : String :=
  match filenameParam with
  | some f =>
    if f = "" then fallbackFilename urlPathname contentType url now else f
  | none => fallbackFilename urlPathname contentType url now

/-! ## uploadAttachmentFromUrl (lines 187-305)

The download `fetch` outcome is a record; `Date.now()` is the `now`
parameter; the URL parsing (`new URL(url).pathname`) is the `urlPathname`
parameter.  The temp-file life cycle is tracked by two booleans:
`tempFileRemains` (does the temp file still exist after the `finally`
block) and `cleanupLogged` (did the `finally` block log a cleanup failure).
On the download-failure path the temp path was never assigned, and on the
empty-download path the file was never written (`existsSync` is false), so
the `finally` block removes nothing on either; the write only happens after
the empty check.
-/

/-- Outcome of the download `fetch(options.url, ...)`. -/
structure FetchResponse where
  ok : Bool
  status : Nat
  statusText : String
  contentType : Option String
  byteLength : Nat
  deriving Repr, DecidableEq

/-- Environment of `uploadAttachmentFromUrl`: the fetch outcome, the nested
`uploadAttachment` collaborators, whether `fs.unlinkSync` would throw, and
the temp directory path. -/
structure FromUrlEnv where
  fetch : FetchResponse
  authToken : Except String String
  submitUpload : String → String → Except String PlankaAttachment
  unlinkFails : Bool
  tempDir : String

/-- Observable outcome of `uploadAttachmentFromUrl`. -/
structure FromUrlOutcome where
  result : Except String PlankaAttachment
  kanbanCalls : List NetworkCall
  tempFileRemains : Bool
  cleanupLogged : Bool

/-- Translation of `uploadAttachmentFromUrl` (lines 187-305): download,
choose the filename, fail on an empty body before writing, otherwise write
the temp file, delegate to `uploadAttachment`, and always run the `finally`
cleanup; every thrown error is wrapped with the prefix
`Failed to upload attachment from URL: `. -/
def uploadAttachmentFromUrl (env : FromUrlEnv) (cardId url urlPathname : String)
    (filenameParam : Option String) (now : Nat) : FromUrlOutcome :=
  if env.fetch.ok = false then
    { result := Except.error ("Failed to upload attachment from URL: " ++
        ("Failed to download file from " ++ url ++ ": HTTP " ++
          toString env.fetch.status ++ " " ++ env.fetch.statusText))
      kanbanCalls := []
      tempFileRemains := false
      cleanupLogged := false }
  else
    let filename := chooseFilename filenameParam urlPathname env.fetch.contentType url now
    let tempFilePath := env.tempDir ++ "/" ++ filename
    if env.fetch.byteLength = 0 then
      { result := Except.error ("Failed to upload attachment from URL: " ++
          ("Downloaded file is empty (0 bytes) from " ++ url))
        kanbanCalls := []
        tempFileRemains := false
        cleanupLogged := false }
    else
      let uploadOutcome :=
        uploadAttachment
          { fileExists := fun p => p == tempFilePath
            authToken := env.authToken
            submitUpload := env.submitUpload }
          cardId tempFilePath
      let primary :=
        match uploadOutcome.1 with
        | Except.ok item => Except.ok item
        | Except.error e =>
          Except.error ("Failed to upload attachment from URL: " ++ e)
      { result := primary
        kanbanCalls := uploadOutcome.2
        tempFileRemains := env.unlinkFails
        cleanupLogged := env.unlinkFails }

/-! ## Claim theorems: C3, C4, C5 -/

/-- C3 counterexample: `deleteAttachment` has no try/catch; a transport
error escapes to the caller verbatim (here the message `boom`, which does
not carry a `Failed ...` operation-purpose prefix). -/
theorem deleteAttachment_error_escapes_unwrapped :
    deleteAttachment (Except.error "boom") "att1" = Except.error "boom" ∧
    "boom".startsWith "Failed" = false :=
  ⟨rfl, by decide⟩

/-- C3 amended: of the nineteen exposed operations, all except
`deleteAttachment` and `getUserIdByName` catch their own internal failures
and re-raise a single error prefixed with that operation's purpose,
preserving the original message.  `deleteAttachment` has no try/catch and
propagates the transport error unwrapped; `getUserIdByName` also adds no
handler of its own — the error it re-throws is the one already wrapped
with `searchUsersByName`'s prefix, not a `getUserIdByName` prefix. -/
theorem operations_wrap_internal_errors (e : String) :
    addCardMember (Except.error e) =
      Except.error ("Failed to add member to card: " ++ e) ∧
    removeCardMember (Except.error e) =
      Except.error ("Failed to remove member from card: " ++ e) ∧
    getCardMembers (Except.error e) =
      Except.error ("Failed to get card members: " ++ e) ∧
    (uploadAttachment
        { fileExists := fun _ => true, authToken := Except.error e,
          submitUpload := fun _ _ => Except.error e } "c1" "/f").1 =
      Except.error ("Failed to upload attachment: " ++ e) ∧
    (uploadAttachmentFromUrl
        { fetch := { ok := true, status := 200, statusText := "OK", contentType := none, byteLength := 5 },
          authToken := Except.error e, submitUpload := fun _ _ => Except.error e,
          unlinkFails := false, tempDir := "/tmp/kanban-mcp-attachments" }
        "c1" "http://h/a.png" "/a.png" none 7).result =
      Except.error ("Failed to upload attachment from URL: " ++
        ("Failed to upload attachment: " ++ e)) ∧
    getAttachments (Except.error e) =
      Except.error ("Failed to get attachments: " ++ e) ∧
    getCardActions (Except.error e) =
      Except.error ("Failed to get card actions: " ++ e) ∧
    getAction (Except.error e) =
      Except.error ("Failed to get action: " ++ e) ∧
    getCardActivitySummary (Except.error e) =
      Except.error ("Failed to get card activity summary: " ++
        ("Failed to get card actions: " ++ e)) ∧
    getUsers (Except.error e) =
      Except.error ("Failed to get users: " ++ e) ∧
    getUser (Except.error e) =
      Except.error ("Failed to get user: " ++ e) ∧
    searchUsersByName (Except.error e) "x" =
      Except.error ("Failed to search users by name: " ++
        ("Failed to get users: " ++ e)) ∧
    searchUsersByEmail (Except.error e) "x" =
      Except.error ("Failed to search users by email: " ++
        ("Failed to get users: " ++ e)) ∧
    searchUsersByUsername (Except.error e) "x" =
      Except.error ("Failed to search users by username: " ++
        ("Failed to get users: " ++ e)) ∧
    getNotifications (Except.error e) =
      Except.error ("Failed to get notifications: " ++ e) ∧
    getNotification (Except.error e) =
      Except.error ("Failed to get notification: " ++ e) ∧
    (markNotificationsAsRead (fun _ => Except.error e) ["n1"]).1 =
      Except.error ("Failed to mark notifications as read: " ++ e) ∧
    getUnreadNotificationsCount (Except.error e) =
      Except.error ("Failed to get unread notifications count: " ++
        ("Failed to get notifications: " ++ e)) ∧
    (markAllNotificationsAsRead (Except.error e) (fun _ => Except.error e)).1 =
      Except.error ("Failed to mark all notifications as read: " ++
        ("Failed to get notifications: " ++ e)) ∧
    deleteAttachment (Except.error e) "att1" = Except.error e ∧
    getUserIdByName (Except.error e) "x" =
      Except.error ("Failed to search users by name: " ++
        ("Failed to get users: " ++ e)) :=
  ⟨rfl, rfl, rfl, rfl, rfl, rfl, rfl, rfl, rfl, rfl, rfl, rfl, rfl, rfl, rfl, rfl,
   rfl, rfl, rfl, rfl, rfl⟩

/-- C3 witness: the wrapped error of `addCardMember` at a concrete
transport failure. -/
theorem operations_wrap_internal_errors_witness :
    addCardMember (Except.error "boom") =
      Except.error ("Failed to add member to card: " ++ "boom") :=
  (operations_wrap_internal_errors "boom").1

set_option maxHeartbeats 2000000 in
/-- Helper: the mime table never returns an empty extension. -/
theorem mimeToExt_ne_empty (m x : String) (h : mimeToExt m = some x) : x ≠ "" := by
  unfold mimeToExt at h
  split_ifs at h <;>
    first
      | exact Option.noConfusion h
      | (rw [Option.some_inj] at h; subst h; decide)

/-- Helper: unfolding of `chooseFilename` when no explicit filename
parameter is given (the lets of the source zeta-reduced). -/
theorem chooseFilename_none_eq (urlPathname : String) (contentType : Option String)
    (url : String) (now : Nat) :
    chooseFilename none urlPathname contentType url now =
      (if posixBasename urlPathname ≠ "" && posixBasename urlPathname ≠ "/" &&
          hasShortExt (posixBasename urlPathname) then
        posixBasename urlPathname
      else
        "download_" ++ toString now ++
          (if (match contentType with
                | some ct => (mimeToExt (normalizeContentType ct)).getD ""
                | none => "") = "" then
            (urlRegexExt url).getD ".bin"
          else
            (match contentType with
              | some ct => (mimeToExt (normalizeContentType ct)).getD ""
              | none => ""))) := rfl

/-- C4 counterexample: the source gates the explicit parameter with the JS
truthiness test `if (!filename)`, so a present-but-empty `filename`
parameter is ignored and the fallback chain runs instead — here it yields
the URL basename `photo.png`, not the given empty string. -/
theorem chooseFilename_empty_param_ignored :
    chooseFilename (some "") "/x/photo.png" none "http://h/x/photo.png" 5 =
      "photo.png" ∧
    ("photo.png" : String) ≠ "" :=
  ⟨rfl, by decide⟩

/-- C4 amended: the filename of `uploadAttachmentFromUrl` is chosen in
priority order — the explicit `filename` parameter when it is present and
nonempty (an empty string is falsy in JS and treated like an absent
parameter); else the URL path basename when it carries a dotted extension
of 2-4 alphanumeric characters; else `download_<epoch-millis>` plus an
extension taken first from the MIME-type table keyed off the response
content-type, then from the regex extension match against the URL string,
defaulting to `.bin`. -/
theorem chooseFilename_priority (urlPathname url : String)
    (contentType : Option String) (now : Nat) :
    (∀ f, f ≠ "" → chooseFilename (some f) urlPathname contentType url now = f) ∧
    chooseFilename (some "") urlPathname contentType url now =
      chooseFilename none urlPathname contentType url now ∧
    ((posixBasename urlPathname ≠ "" && posixBasename urlPathname ≠ "/" &&
        hasShortExt (posixBasename urlPathname)) = true →
      chooseFilename none urlPathname contentType url now = posixBasename urlPathname) ∧
    ((posixBasename urlPathname ≠ "" && posixBasename urlPathname ≠ "/" &&
        hasShortExt (posixBasename urlPathname)) = false →
      (∀ ct mimeExt, contentType = some ct →
        mimeToExt (normalizeContentType ct) = some mimeExt →
        chooseFilename none urlPathname contentType url now =
          "download_" ++ toString now ++ mimeExt) ∧
      ((∀ ct, contentType = some ct → mimeToExt (normalizeContentType ct) = none) →
        (∀ regexExt, urlRegexExt url = some regexExt →
          chooseFilename none urlPathname contentType url now =
            "download_" ++ toString now ++ regexExt) ∧
        (urlRegexExt url = none →
          chooseFilename none urlPathname contentType url now =
            "download_" ++ toString now ++ ".bin"))) := by
  refine ⟨?_, rfl, ?_, ?_⟩
  · intro f hf
    simp [chooseFilename, hf]
  · intro h
    rw [chooseFilename_none_eq, if_pos h]
  · intro h
    have hc : ¬ ((posixBasename urlPathname ≠ "" && posixBasename urlPathname ≠ "/" &&
        hasShortExt (posixBasename urlPathname)) = true) := by rw [h]; decide
    constructor
    · intro ct mimeExt hct hmime
      have hne := mimeToExt_ne_empty _ _ hmime
      subst hct
      rw [chooseFilename_none_eq, if_neg hc]
      simp [hmime, hne]
    · intro hmime
      constructor
      · intro regexExt hregex
        cases contentType with
        | none =>
          rw [chooseFilename_none_eq, if_neg hc]
          simp [hregex]
        | some ct =>
          have hm := hmime ct rfl
          rw [chooseFilename_none_eq, if_neg hc]
          simp [hm, hregex]
      · intro hregex
        cases contentType with
        | none =>
          rw [chooseFilename_none_eq, if_neg hc]
          simp [hregex]
        | some ct =>
          have hm := hmime ct rfl
          rw [chooseFilename_none_eq, if_neg hc]
          simp [hm, hregex]

/-- C4 witness: a nonempty explicit parameter wins, and with no parameter
an extensionless path with content-type `image/png` gets the generated
name with the `.png` table extension. -/
theorem chooseFilename_priority_witness :
    chooseFilename (some "f.txt") "/x/photo" (some "image/png") "http://h/x/photo" 7 =
      "f.txt" ∧
    chooseFilename none "/x/photo" (some "image/png") "http://h/x/photo" 7 =
      "download_" ++ toString 7 ++ ".png" :=
  ⟨(chooseFilename_priority "/x/photo" "http://h/x/photo" (some "image/png") 7).1
      "f.txt" (by decide),
   ((chooseFilename_priority "/x/photo" "http://h/x/photo" (some "image/png") 7).2.2.2
      (by decide)).1 "image/png" ".png" rfl (by decide)⟩

/-- C5: `uploadAttachment` on a `filePath` that does not reference an
existing local file fails immediately with the descriptive file-not-found
error, wrapped with the operation prefix, and issues zero network calls:
neither the authentication collaborator nor the upload endpoint appears in
the trace. -/
theorem uploadAttachment_missing_file_no_network (env : UploadEnv)
    (cardId filePath : String) (h : env.fileExists filePath = false) :
    uploadAttachment env cardId filePath =
      (Except.error ("Failed to upload attachment: " ++
        ("File not found: " ++ filePath)), []) := by
  simp [uploadAttachment, h]

/-- C5 witness: a concrete environment whose filesystem has no files. -/
theorem uploadAttachment_missing_file_no_network_witness :
    uploadAttachment
        { fileExists := fun _ => false, authToken := Except.ok "tok",
          submitUpload := fun _ _ => Except.error "unreachable" }
        "c1" "/tmp/missing.txt" =
      (Except.error ("Failed to upload attachment: " ++
        ("File not found: " ++ "/tmp/missing.txt")), []) :=
  uploadAttachment_missing_file_no_network
    { fileExists := fun _ => false, authToken := Except.ok "tok",
      submitUpload := fun _ _ => Except.error "unreachable" }
    "c1" "/tmp/missing.txt" rfl

/-! ## Claim theorems: C6, C7 -/

/-- Sample fetch outcome for witnesses: a successful download of zero bytes. -/
def emptyFetchW : FetchResponse :=
  { ok := true, status := 200, statusText := "OK",
    contentType := some "image/png", byteLength := 0 }

/-- Sample fetch outcome for witnesses: a successful 5-byte download. -/
def smallFetchW : FetchResponse :=
  { ok := true, status := 200, statusText := "OK",
    contentType := none, byteLength := 5 }

/-- Sample environment for the empty-download witness. -/
def emptyDownloadEnvW : FromUrlEnv :=
  { fetch := emptyFetchW, authToken := Except.ok "tok",
    submitUpload := fun _ _ => Except.error "unreachable",
    unlinkFails := false, tempDir := "/tmp/kanban-mcp-attachments" }

/-- Sample environment for the cleanup witness: the upload fails and so does
the unlink. -/
def failingUnlinkEnvW : FromUrlEnv :=
  { fetch := smallFetchW, authToken := Except.ok "tok",
    submitUpload := fun _ _ => Except.error "Upload failed (500): oops",
    unlinkFails := true, tempDir := "/tmp/kanban-mcp-attachments" }

/-- C6: a download that succeeds but yields zero bytes makes
`uploadAttachmentFromUrl` fail with the distinct empty-download error
(wrapped with the operation prefix), and no upload call reaches the kanban
service. -/
theorem uploadAttachmentFromUrl_empty_download (env : FromUrlEnv)
    (cardId url urlPathname : String) (filenameParam : Option String) (now : Nat)
    (hok : env.fetch.ok = true) (hzero : env.fetch.byteLength = 0) :
    (uploadAttachmentFromUrl env cardId url urlPathname filenameParam now).result =
      Except.error ("Failed to upload attachment from URL: " ++
        ("Downloaded file is empty (0 bytes) from " ++ url)) ∧
    (uploadAttachmentFromUrl env cardId url urlPathname filenameParam now).kanbanCalls
      = [] := by
  constructor <;> simp [uploadAttachmentFromUrl, hok, hzero]

/-- C6 witness: a concrete zero-byte download. -/
theorem uploadAttachmentFromUrl_empty_download_witness :
    (uploadAttachmentFromUrl emptyDownloadEnvW
        "c1" "http://h/x/photo" "/x/photo" none 7).result =
      Except.error ("Failed to upload attachment from URL: " ++
        ("Downloaded file is empty (0 bytes) from " ++ "http://h/x/photo")) ∧
    (uploadAttachmentFromUrl emptyDownloadEnvW
        "c1" "http://h/x/photo" "/x/photo" none 7).kanbanCalls = [] :=
  uploadAttachmentFromUrl_empty_download emptyDownloadEnvW
    "c1" "http://h/x/photo" "/x/photo" none 7 rfl rfl

/-- C7: whenever `uploadAttachmentFromUrl` actually wrote a temp file (the
download succeeded with a nonempty body), the `finally` cleanup removes it
on every exit path — success or upload failure — when the removal works;
and a removal failure is logged and swallowed: the primary result is
exactly what it would have been had the removal succeeded. -/
theorem uploadAttachmentFromUrl_cleanup (env : FromUrlEnv)
    (cardId url urlPathname : String) (filenameParam : Option String) (now : Nat)
    (hok : env.fetch.ok = true) (hbytes : env.fetch.byteLength ≠ 0) :
    (uploadAttachmentFromUrl env cardId url urlPathname filenameParam now).result =
      (uploadAttachmentFromUrl { env with unlinkFails := false }
        cardId url urlPathname filenameParam now).result ∧
    (uploadAttachmentFromUrl { env with unlinkFails := false }
        cardId url urlPathname filenameParam now).tempFileRemains = false ∧
    (env.unlinkFails = false →
      (uploadAttachmentFromUrl env cardId url urlPathname filenameParam now).tempFileRemains
          = false ∧
      (uploadAttachmentFromUrl env cardId url urlPathname filenameParam now).cleanupLogged
          = false) ∧
    (env.unlinkFails = true →
      (uploadAttachmentFromUrl env cardId url urlPathname filenameParam now).tempFileRemains
          = true ∧
      (uploadAttachmentFromUrl env cardId url urlPathname filenameParam now).cleanupLogged
          = true) := by
  constructor
  · simp [uploadAttachmentFromUrl, hok, hbytes]
  constructor
  · simp [uploadAttachmentFromUrl, hok, hbytes]
  constructor
  · intro hu; constructor <;> simp [uploadAttachmentFromUrl, hok, hbytes, hu]
  · intro hu; constructor <;> simp [uploadAttachmentFromUrl, hok, hbytes, hu]

/-- C7 witness: a failing unlink after a failing upload — the cleanup
failure is logged and the temp file survives, while the primary error stays
the upload error. -/
theorem uploadAttachmentFromUrl_cleanup_witness :
    (uploadAttachmentFromUrl failingUnlinkEnvW
        "c1" "http://h/a.png" "/a.png" none 7).tempFileRemains = true ∧
    (uploadAttachmentFromUrl failingUnlinkEnvW
        "c1" "http://h/a.png" "/a.png" none 7).cleanupLogged = true :=
  (uploadAttachmentFromUrl_cleanup failingUnlinkEnvW
    "c1" "http://h/a.png" "/a.png" none 7 rfl (by decide)).2.2.2 rfl

/-! ## Claim theorems: C8, C9, C10 -/

/-- Helper: formatting preserves each action's type, so the per-type count
over the formatted list equals the count over the raw actions. -/
theorem filter_type_map_formatAction (users : Option (List PlankaUser))
    (t : ActionType) (actions : List PlankaAction) :
    ((actions.map (formatAction users)).filter fun a => a.type == t).length =
      (actions.filter fun a => a.type == t).length := by
  induction actions with
  | nil => rfl
  | cons a as ih =>
    have htype : (formatAction users a).type = a.type := rfl
    simp only [List.map_cons, List.filter_cons, htype]
    cases hba : (a.type == t) <;> simp [hba, ih]

/-- Helper: the three action types are exhaustive and mutually exclusive,
so the three per-type counts partition any list of formatted actions. -/
theorem length_eq_three_type_counts (l : List FormattedAction) :
    l.length = (l.filter fun a => a.type == ActionType.createCard).length +
      (l.filter fun a => a.type == ActionType.moveCard).length +
      (l.filter fun a => a.type == ActionType.commentCard).length := by
  induction l with
  | nil => rfl
  | cons a as ih =>
    cases hta : a.type <;> simp [List.filter_cons, hta, ih] <;> omega

/-- Sample actions for concrete witnesses: the spec example of one
createCard and two moveCard actions. -/
def sampleActions : List PlankaAction :=
  [⟨"a1", ActionType.createCard, [], "c1", "u1", "t1", none⟩,
   ⟨"a2", ActionType.moveCard, [], "c1", "u1", "t2", none⟩,
   ⟨"a3", ActionType.moveCard, [], "c1", "u2", "t3", none⟩]

/-- C8: for every validated actions response, the summary's `byType` counts
each of the exactly three known types by filtering the action list, and
`recentActions` is the first at-most-10 formatted actions in the input
order of the fetched list (`allActions` being the order-preserving
formatted image of the items). -/
theorem getCardActivitySummary_byType_recent (resp : ActionsResponse) :
    ∃ s, getCardActivitySummary (Except.ok resp) = Except.ok s ∧
      s.byTypeCreateCard =
        (resp.items.filter fun a => a.type == ActionType.createCard).length ∧
      s.byTypeMoveCard =
        (resp.items.filter fun a => a.type == ActionType.moveCard).length ∧
      s.byTypeCommentCard =
        (resp.items.filter fun a => a.type == ActionType.commentCard).length ∧
      s.allActions =
        resp.items.map (formatAction (resp.included.getD { users := none }).users) ∧
      s.recentActions = s.allActions.take 10 ∧
      s.recentActions.length ≤ 10 := by
  refine ⟨summarizeActions resp.items (resp.included.getD { users := none }).users,
    rfl, filter_type_map_formatAction _ _ _, filter_type_map_formatAction _ _ _,
    filter_type_map_formatAction _ _ _, rfl, rfl, ?_⟩
  apply List.length_take_le

/-- C8 witness: the spec example — actions of types createCard, moveCard,
moveCard with no included users. -/
theorem getCardActivitySummary_byType_recent_witness :
    ∃ s, getCardActivitySummary
        (Except.ok { items := sampleActions, included := none }) = Except.ok s ∧
      s.byTypeCreateCard =
        (sampleActions.filter fun a => a.type == ActionType.createCard).length ∧
      s.byTypeMoveCard =
        (sampleActions.filter fun a => a.type == ActionType.moveCard).length ∧
      s.byTypeCommentCard =
        (sampleActions.filter fun a => a.type == ActionType.commentCard).length ∧
      s.allActions = sampleActions.map (formatAction none) ∧
      s.recentActions = s.allActions.take 10 ∧
      s.recentActions.length ≤ 10 :=
  getCardActivitySummary_byType_recent { items := sampleActions, included := none }

/-- C9 counterexample: with a single, already-read notification the call
returns the empty result, but its network-call trace is the one GET that
fetched the notification list — not empty, refuting "without issuing any
network call". -/
theorem markAllNotificationsAsRead_issues_get :
    (markAllNotificationsAsRead
        (Except.ok { items := [⟨"n1", "u1", "a1", "c1", true, "t0", none⟩],
                     included := none })
        (fun _ => Except.error "no patch")).1 = Except.ok [] ∧
    (markAllNotificationsAsRead
        (Except.ok { items := [⟨"n1", "u1", "a1", "c1", true, "t0", none⟩],
                     included := none })
        (fun _ => Except.error "no patch")).2 = [NotificationCall.getList] ∧
    ([NotificationCall.getList] : List NotificationCall) ≠ [] :=
  ⟨rfl, rfl, by decide⟩

/-- C9 amended: when the current user has zero unread notifications,
`markAllNotificationsAsRead` returns an empty result and issues no
mark-as-read PATCH: its only network call is the single GET that fetches
the notification list. -/
theorem markAllNotificationsAsRead_no_patch_when_none_unread
    (resp : NotificationsResponse)
    (patch : String → Except String PlankaNotification)
    (h : ∀ n ∈ resp.items, n.isRead = true) :
    markAllNotificationsAsRead (Except.ok resp) patch =
      (Except.ok [], [NotificationCall.getList]) := by
  have hfilter : (resp.items.filter fun n => !n.isRead) = [] := by
    apply List.filter_eq_nil_iff.mpr
    intro n hn
    simp [h n hn]
  simp [markAllNotificationsAsRead, getNotifications, hfilter]

/-- C9 witness: one notification, already read. -/
theorem markAllNotificationsAsRead_no_patch_witness :
    markAllNotificationsAsRead
        (Except.ok { items := [⟨"n2", "u1", "a1", "c1", true, "t0", none⟩],
                     included := none })
        (fun _ => Except.error "no patch") =
      (Except.ok [], [NotificationCall.getList]) :=
  markAllNotificationsAsRead_no_patch_when_none_unread
    { items := [⟨"n2", "u1", "a1", "c1", true, "t0", none⟩], included := none }
    (fun _ => Except.error "no patch") (by decide)

/-- C10: every successful `getCardActivitySummary` result satisfies
`totalActions = byType.createCard + byType.moveCard + byType.commentCard`:
the validated schema restricts each action's type to exactly those three
values, so the three per-type counts partition the action list. -/
theorem getCardActivitySummary_total_partition (request : Except String ActionsResponse)
    (s : ActivitySummary) (h : getCardActivitySummary request = Except.ok s) :
    s.totalActions = s.byTypeCreateCard + s.byTypeMoveCard + s.byTypeCommentCard := by
  cases request with
  | error e => exact absurd h (by simp [getCardActivitySummary, getCardActions])
  | ok resp =>
    have hs : s = summarizeActions resp.items (resp.included.getD { users := none }).users := by
      have hh := h
      simp [getCardActivitySummary, getCardActions] at hh
      exact hh.symm
    subst hs
    exact length_eq_three_type_counts _

/-- C10 witness: the three-action sample summary. -/
theorem getCardActivitySummary_total_partition_witness :
    (summarizeActions sampleActions none).totalActions =
      (summarizeActions sampleActions none).byTypeCreateCard +
      (summarizeActions sampleActions none).byTypeMoveCard +
      (summarizeActions sampleActions none).byTypeCommentCard :=
  getCardActivitySummary_total_partition
    (Except.ok { items := sampleActions, included := none })
    (summarizeActions sampleActions none) rfl
